import Mathlib

/-!
Shallow embedding of `app.py` (GeniusMind Quant Analyst, stable version),
a Flask backend with two JSON endpoints:

* `POST /api/get_stock_recommendation` — turns a free-text query into
  screener filters, fetches candidate tickers, aggregates per-ticker
  data, asks a language model to rank them, and parses its reply.
* `GET /api/get_stock_details/<ticker>` — single-ticker profile fetch.

External collaborators (the FMP HTTP API keyed by request URL, yfinance
keyed by symbol, the language model keyed by prompt, and the `json`
module) are modelled as oracle fields of an environment record;
`Except Unit` models a raised exception, `Option` a value that may be
absent.  Python string operations used by the code are re-implemented
over `List Char` so that every definition evaluates inside Lean.
-/

/-- Lower-case a string character by character, as Python `str.lower`
does on the ASCII text this application handles. -/
def pyLower (s : String) : String := String.mk (s.toList.map Char.toLower)

/-- Upper-case a string character by character, as Python `str.upper`. -/
def pyUpper (s : String) : String := String.mk (s.toList.map Char.toUpper)

/-- Decide whether `pat` occurs as a contiguous sublist of the second
argument. -/
def listIsInfix (pat : List Char) : List Char → Bool
  | [] => pat.isEmpty
  | c :: cs => pat.isPrefixOf (c :: cs) || listIsInfix pat cs

/-- Python substring test `pat in s`. -/
def strContains (s pat : String) : Bool := listIsInfix pat.toList s.toList

/-- Python `str.strip`: drop whitespace from both ends. -/
def pyStrip (s : String) : String :=
  String.mk
    (((s.toList.dropWhile Char.isWhitespace).reverse.dropWhile
        Char.isWhitespace).reverse)

/-- Fuel-indexed worker for `pyEraseAll`: remove every left-to-right,
non-overlapping occurrence of `pat`.  The fuel starts at the length of
the scanned list, which bounds the number of steps. -/
def eraseAllAux (pat : List Char) : Nat → List Char → List Char
  | 0, cs => cs
  | _ + 1, [] => []
  | n + 1, c :: cs =>
    if !pat.isEmpty && pat.isPrefixOf (c :: cs) then
      eraseAllAux pat n (List.drop (pat.length - 1) cs)
    else
      c :: eraseAllAux pat n cs

/-- Python `s.replace(pat, "")`: delete every occurrence of `pat`. -/
def pyEraseAll (s pat : String) : String :=
  String.mk (eraseAllAux pat.toList s.toList.length s.toList)

/-- Value of one screener query parameter.  The Python dict holds
integers, booleans and the two float literals `1.0` and `0.5`; a float
literal `u.t` is embedded as `pDecimal u t`. -/
inductive ParamValue where
  | pInt (n : Int)
  | pBool (b : Bool)
  | pDecimal (units tenths : Nat)
deriving DecidableEq

/-- Python `str(value)` as used when the parameter is appended to the
screener URL. -/
def ParamValue.toUrlStr : ParamValue → String
  | .pInt n => toString n
  | .pBool b => if b then "True" else "False"
  | .pDecimal u t => toString u ++ "." ++ toString t

/-- Embedding of `get_intelligent_screener_params` (app.py lines
24-41): three base filters plus keyword-conditional filters.  The
Python dict assigns distinct keys in a fixed order, so insertion-order
append of association pairs models it exactly. -/
def get_intelligent_screener_params (query : String) :
    List (String × ParamValue) :=
  [("marketCapMoreThan", ParamValue.pInt 10000000000),
   ("volumeMoreThan", ParamValue.pInt 100000),
   ("limit", ParamValue.pInt 20)]
  ++ (if strContains query "high return" || strContains query "growth" then
        [("isActivelyTrading", ParamValue.pBool true)]
      else [])
  ++ (if strContains query "less investment" ||
         strContains query "undervalued" then
        [("peRatioLessThan", ParamValue.pInt 30),
         ("priceToSalesRatioLessThan", ParamValue.pInt 4)]
      else [])
  ++ (if strContains query "safe" || strContains query "stable" then
        [("betaLowerThan", ParamValue.pDecimal 1 0),
         ("dividendYieldMoreThan", ParamValue.pDecimal 0 5)]
      else [])

/-- One element of the screener response body; the handler reads
`stock["symbol"]` from each element. -/
structure ScreenerItem where
  symbol : String
deriving DecidableEq

/-- Result of `requests.get` on the screener URL: HTTP status code and
decoded JSON body. -/
structure ScreenerResp where
  status_code : Nat
  json : List ScreenerItem
deriving DecidableEq

/-- Fields of `yf.Ticker(...).info` that the handler reads; each may be
absent, in which case `dict.get` yields `None`. -/
structure YfInfo where
  longName : Option String
  sector : Option String
  marketCap : Option Int
  pegRatio : Option ℚ
  profitMargins : Option ℚ
  revenueGrowth : Option ℚ
deriving DecidableEq

/-- Fields of one FMP ratios-ttm record that the handler reads. -/
structure RatiosRec where
  priceEarningsRatioTTM : Option ℚ
  priceToSalesRatioTTM : Option ℚ
  returnOnEquityTTM : Option ℚ
  debtToEquityRatioTTM : Option ℚ
deriving DecidableEq

/-- The Python `{}` fallback, whose `get` yields `None` for every key. -/
def emptyRatios : RatiosRec := ⟨none, none, none, none⟩

/-- Result of `requests.get` on the ratios URL. -/
structure RatiosResp where
  status_code : Nat
  json : List RatiosRec
deriving DecidableEq

/-- The flat per-ticker record assembled in the aggregation loop
(app.py lines 98-110). -/
structure Profile where
  ticker : String
  companyName : Option String
  sector : Option String
  marketCap : Option Int
  peRatio : Option ℚ
  pegRatio : Option ℚ
  priceToSalesRatio : Option ℚ
  returnOnEquity : Option ℚ
  debtToEquityRatio : Option ℚ
  profitMargin : Option ℚ
  revenueGrowth : Option ℚ
deriving DecidableEq

/-- Generic JSON value, the result type of `json.loads`. -/
inductive Json where
  | null
  | bool (b : Bool)
  | num (n : Int)
  | str (s : String)
  | arr (elems : List Json)
  | obj (fields : List (String × Json))

/-- Body of a recommendation-endpoint response: either
`jsonify({"error": msg})` or `jsonify(parsed_json)`. -/
inductive RecPayload where
  | errorObj (msg : String)
  | json (j : Json)

/-- An HTTP response of the recommendation endpoint. -/
structure RecResponse where
  status : Nat
  payload : RecPayload

/-- One outbound screener request, with the pieces the URL is
assembled from. -/
structure ScreenerCall where
  url : String
  country : String
  params : List (String × ParamValue)
deriving DecidableEq

/-- Record of the outbound calls one handler run performs. -/
structure CallLog where
  screenerCalls : List ScreenerCall
  yfCalls : List String
  ratiosCalls : List String
  llmCalls : Nat
  parseCalls : List String
deriving DecidableEq

/-- The log of a run that performed no outbound call. -/
def CallLog.empty : CallLog := ⟨[], [], [], 0, []⟩

/-- Oracle for the external world: the FMP screener and ratios
endpoints keyed by full request URL, yfinance keyed by symbol, the
language model keyed by prompt, and the `json` module.  `Except.error`
models a raised exception. -/
structure Env where
  apikey : String
  screener : String → Except Unit ScreenerResp
  yf : String → Except Unit (Option YfInfo)
  ratios : String → Except Unit RatiosResp
  llm : String → Except Unit String
  jsonLoads : String → Option Json
  jsonDumps : List Profile → String

/-- Screener URL construction (app.py lines 64-66): base URL with
country and api key, then one `&key=value` pair per parameter. -/
def mkScreenerUrl (apikey country : String)
    (params : List (String × ParamValue)) : String :=
  params.foldl
    (fun url kv => url ++ "&" ++ kv.1 ++ "=" ++ ParamValue.toUrlStr kv.2)
    ("https://financialmodelingprep.com/api/v3/stock-screener?country="
      ++ country ++ "&apikey=" ++ apikey)

/-- Ratios URL construction (app.py line 94). -/
def mkRatiosUrl (apikey ticker : String) : String :=
  "https://financialmodelingprep.com/api/v3/ratios-ttm/" ++ ticker
    ++ "?apikey=" ++ apikey

/-- Profile URL construction (app.py line 158). -/
def mkProfileUrl (apikey ticker : String) : String :=
  "https://financialmodelingprep.com/api/v3/profile/" ++ ticker
    ++ "?apikey=" ++ apikey

/-- Market selection (app.py line 62): India when the lowered query
mentions "indian", otherwise US. -/
def countryOf (user_query : String) : String :=
  if strContains user_query "indian" then "IN" else "US"

/-- Robust ticker handling (app.py lines 83-86): a ticker containing a
dot is used verbatim, otherwise `.NS` is appended for the Indian
market. -/
def yfTickerStr (country ticker : String) : String :=
  if strContains ticker "." then ticker
  else if country = "IN" then ticker ++ ".NS" else ticker

/-- One iteration of the aggregation loop (app.py lines 79-114).
Returns the profile to append (`none` when the ticker is skipped by
`continue`, whether from a raised exception or missing data) together
with the yfinance symbol and the ratios URLs requested. -/
def processTicker (env : Env) (country ticker : String) :
    Option Profile × List String × List String :=
  let yfSym := yfTickerStr country ticker
  match env.yf yfSym with
  | Except.error _ => (none, [yfSym], [])
  | Except.ok none => (none, [yfSym], [])
  | Except.ok (some info) =>
    if info.marketCap = none then (none, [yfSym], [])
    else
      let ratiosUrl := mkRatiosUrl env.apikey ticker
      match env.ratios ratiosUrl with
      | Except.error _ => (none, [yfSym], [ratiosUrl])
      | Except.ok rresp =>
        let r :=
          if rresp.status_code = 200 ∧ rresp.json ≠ [] then
            rresp.json.headD emptyRatios
          else emptyRatios
        (some
          { ticker := ticker
            companyName := info.longName
            sector := info.sector
            marketCap := info.marketCap
            peRatio := r.priceEarningsRatioTTM
            pegRatio := info.pegRatio
            priceToSalesRatio := r.priceToSalesRatioTTM
            returnOnEquity := r.returnOnEquityTTM
            debtToEquityRatio := r.debtToEquityRatioTTM
            profitMargin := info.profitMargins
            revenueGrowth := info.revenueGrowth },
          [yfSym], [ratiosUrl])

/-- The aggregation loop over candidate tickers: profiles of the
non-skipped tickers in order, plus the yfinance and ratios requests
issued, concatenated in order. -/
def aggregate (env : Env) (country : String) :
    List String → List Profile × List String × List String
  | [] => ([], [], [])
  | t :: ts =>
    let step := processTicker env country t
    let rest := aggregate env country ts
    (match step.1 with
     | some p => p :: rest.1
     | none => rest.1,
     step.2.1 ++ rest.2.1,
     step.2.2 ++ rest.2.2)

/-- Model-reply cleanup (app.py line 140): strip, delete the markdown
fence markers, strip again. -/
def cleaned_response (text : String) : String :=
  pyStrip (pyEraseAll (pyEraseAll (pyStrip text) "```json") "```")

/-- The analysis prompt (app.py lines 122-137) with the user query and
the serialized profiles interpolated.  Literal braces of the template
are written with character escapes. -/
def mkPrompt (user_query profiles_json : String) : String :=
  "\n        Act as a senior Quantitative Financial Analyst. Your task is to perform a deep analysis of the following stocks based on the provided quantitative data and the user\x27s investment goal. Your reasoning must be sharp, data-driven, and based on established financial principles.\n\n        **User\x27s Investment Goal:** \""
    ++ user_query
    ++ "\"\n\n        **Quantitative Stock Profiles:**\n        ```json\n        "
    ++ profiles_json
    ++ "\n        ```\n\n        **Your Task:**\n        1.  **Analyze and Filter:** Scrutinize each stock\x27s profile. Use indicators like P/E Ratio (for value), PEG Ratio (for growth at a reasonable price), Return on Equity (for profitability), and Debt-to-Equity Ratio (for financial health) to evaluate how well each stock aligns with the user\x27s goal.\n        2.  **Select Top 3-4 Stocks:** Choose the stocks that provide the most compelling, data-supported case.\n        3.  **Provide Quantitative Reasoning:** For each selected stock, write a concise, expert reason. **You MUST cite at least two specific data points from their profile in your reason.** For example, \"Recommended for its strong growth potential, evidenced by a low PEG ratio of \x7b\x7bpegRatio\x7d\x7d and high Return on Equity of \x7b\x7breturnOnEquity\x7d\x7d.\"\n        4.  **Format the Output:** The final output MUST be a valid JSON array of objects. Do not include any text, explanation, or markdown formatting outside of the JSON structure. Each object must have the keys: \"ticker\", \"company_name\", and \"reason\".\n        "

/-- The recommendation endpoint `POST /api/get_stock_recommendation`
(app.py lines 51-151).  `reqQuery` is the optional `query` field of
the JSON request body; the result is the HTTP response paired with the
log of outbound calls the run performed. -/
def get_stock_recommendation (env : Env) (reqQuery : Option String) :
    RecResponse × CallLog :=
  let user_query := pyLower (reqQuery.getD "")
  if user_query = "" then
    (⟨400, RecPayload.errorObj "Query not provided"⟩, CallLog.empty)
  else
    let country := countryOf user_query
    let screener_params := get_intelligent_screener_params user_query
    let screener_url := mkScreenerUrl env.apikey country screener_params
    let log1 : CallLog :=
      { CallLog.empty with
        screenerCalls := [⟨screener_url, country, screener_params⟩] }
    match env.screener screener_url with
    | Except.error _ =>
      (⟨500, RecPayload.errorObj "An internal server error occurred."⟩, log1)
    | Except.ok sresp =>
      if sresp.status_code ≠ 200 ∨ sresp.json = [] then
        (⟨500,
          RecPayload.errorObj "Could not fetch a list of candidate stocks."⟩,
         log1)
      else
        let candidate_stocks := sresp.json.map (fun s => s.symbol)
        if candidate_stocks = [] then
          (⟨404,
            RecPayload.errorObj
              "No stocks were found that match your initial screening criteria."⟩,
           log1)
        else
          let agg := aggregate env country (candidate_stocks.take 15)
          let log2 :=
            { log1 with yfCalls := agg.2.1, ratiosCalls := agg.2.2 }
          let prompt := mkPrompt user_query (env.jsonDumps agg.1)
          let log3 := { log2 with llmCalls := 1 }
          match env.llm prompt with
          | Except.error _ =>
            (⟨500,
              RecPayload.errorObj "An internal server error occurred."⟩,
             log3)
          | Except.ok text =>
            let cleaned := cleaned_response text
            let log4 := { log3 with parseCalls := [cleaned] }
            match env.jsonLoads cleaned with
            | some parsed => (⟨200, RecPayload.json parsed⟩, log4)
            | none =>
              (⟨500,
                RecPayload.errorObj
                  "The AI analysis module failed to return a valid format."⟩,
               log4)

/-- Fields of one FMP profile record that the detail endpoint reads;
each may be absent. -/
structure ProfileRec where
  symbol : Option String
  companyName : Option String
  sector : Option String
  industry : Option String
  website : Option String
  description : Option String
  mktCap : Option Int
deriving DecidableEq

/-- Result of `requests.get` on the profile URL. -/
structure ProfileResp where
  status_code : Nat
  json : List ProfileRec
deriving DecidableEq

/-- The reshaped record returned by the detail endpoint, with the
`dict.get` defaults applied.  The `mktCap` field keeps `none` where
Python would substitute the default string "N/A". -/
structure CombinedData where
  ticker : String
  companyName : String
  sector : String
  industry : String
  website : String
  description : String
  mktCap : Option Int
deriving DecidableEq

/-- Body of a detail-endpoint response. -/
inductive DetPayload where
  | errorObj (msg : String)
  | data (d : CombinedData)
deriving DecidableEq

/-- An HTTP response of the detail endpoint. -/
structure DetResponse where
  status : Nat
  payload : DetPayload
deriving DecidableEq

/-- Oracle for the external world of the detail endpoint: the FMP
profile endpoint keyed by request URL. -/
structure DetEnv where
  apikey : String
  profile : String → Except Unit ProfileResp

/-- The detail endpoint `GET /api/get_stock_details/<ticker>` (app.py
lines 154-178).  The empty-list arm after the guard is unreachable; it
models the IndexError that `json()[0]` would raise reaching the outer
handler. -/
def get_stock_details (env : DetEnv) (ticker : String) : DetResponse :=
  match env.profile (mkProfileUrl env.apikey ticker) with
  | Except.error _ => ⟨500, DetPayload.errorObj "An internal error occurred."⟩
  | Except.ok presp =>
    if presp.status_code ≠ 200 ∨ presp.json = [] then
      ⟨404, DetPayload.errorObj "Could not retrieve FMP data for this stock."⟩
    else
      match presp.json with
      | [] => ⟨500, DetPayload.errorObj "An internal error occurred."⟩
      | pd :: _ =>
        ⟨200, DetPayload.data
          { ticker := pd.symbol.getD (pyUpper ticker)
            companyName := pd.companyName.getD "N/A"
            sector := pd.sector.getD "N/A"
            industry := pd.industry.getD "N/A"
            website := pd.website.getD "#"
            description := pd.description.getD "N/A"
            mktCap := pd.mktCap }⟩

/-- Modelled from the spec: the claimed JSON extraction that locates
the first left square bracket and the last right square bracket of the
model text and takes the inclusive substring between them.  No such
procedure appears in `app.py`; this definition exists only to compare
the claim with `cleaned_response`. -/
def specBracketExtract (text : String) : Option String :=
  let cs := text.toList
  match List.findIdx? (fun c => c = '[') cs with
  | none => none
  | some i =>
    match List.findIdx? (fun c => c = ']') cs.reverse with
    | none => none
    | some rj =>
      let j := cs.length - 1 - rj
      if i ≤ j then some (String.mk ((cs.drop i).take (j + 1 - i)))
      else none

/-- Test environment: the screener succeeds with HTTP 200 and an empty
body; every other collaborator raises. -/
def envScreenerEmpty : Env :=
  { apikey := "k"
    screener := fun _ => Except.ok { status_code := 200, json := [] }
    yf := fun _ => Except.error ()
    ratios := fun _ => Except.error ()
    llm := fun _ => Except.error ()
    jsonLoads := fun _ => none
    jsonDumps := fun _ => "" }

/-- Test environment: the screener returns one candidate, the
per-ticker fetches raise, the model replies with prose around a
one-element JSON array, and `json.loads` always fails. -/
def envBracket : Env :=
  { apikey := "k"
    screener := fun _ => Except.ok { status_code := 200, json := [⟨"AAPL"⟩] }
    yf := fun _ => Except.error ()
    ratios := fun _ => Except.error ()
    llm := fun _ => Except.ok "The top pick is [1] today"
    jsonLoads := fun _ => none
    jsonDumps := fun _ => "" }

/-- Test environment: every collaborator of the recommendation
endpoint raises. -/
def envAllRaise : Env :=
  { apikey := "k"
    screener := fun _ => Except.error ()
    yf := fun _ => Except.error ()
    ratios := fun _ => Except.error ()
    llm := fun _ => Except.error ()
    jsonLoads := fun _ => none
    jsonDumps := fun _ => "" }

/-- Test environment for the detail endpoint: the profile request
succeeds with HTTP 200 and an empty list. -/
def detEnvEmpty : DetEnv :=
  { apikey := "k"
    profile := fun _ => Except.ok { status_code := 200, json := [] } }

/-- Test environment for the detail endpoint: the profile request
raises. -/
def detEnvRaise : DetEnv :=
  { apikey := "k"
    profile := fun _ => Except.error () }
/-- C1 counterexample: the lowered query "show me stocks under 50"
contains the phrase "under 50", yet the derived screener parameters are
exactly the three base filters — no price-ceiling filter and no value
50 appears among them. -/
theorem c1_counterexample :
    strContains (pyLower "Show me stocks under 50") "under 50" = true ∧
    get_intelligent_screener_params (pyLower "Show me stocks under 50") =
      [("marketCapMoreThan", ParamValue.pInt 10000000000),
       ("volumeMoreThan", ParamValue.pInt 100000),
       ("limit", ParamValue.pInt 20)] := by
  constructor
  · decide
  · decide

/-- C1 (amended): the query interpreter extracts no price ceiling at
all — for every query the derived screener parameter keys stay inside
the fixed keyword-driven set and no parameter carries the value 50. -/
theorem c1_no_price_ceiling (query : String) :
    ∀ kv ∈ get_intelligent_screener_params query,
      kv.1 ∈ ["marketCapMoreThan", "volumeMoreThan", "limit",
              "isActivelyTrading", "peRatioLessThan",
              "priceToSalesRatioLessThan", "betaLowerThan",
              "dividendYieldMoreThan"] ∧
      kv.2 ≠ ParamValue.pInt 50 := by
  intro kv h
  simp only [get_intelligent_screener_params, List.mem_append] at h
  rcases h with (((h | h) | h) | h) <;>
    [skip; split at h; split at h; split at h] <;>
    (fin_cases h <;> exact ⟨by decide, by decide⟩)

/-- C1 witness: the amended theorem applied to the lowered query
"show me stocks under 50" at its "limit" parameter. -/
theorem c1_no_price_ceiling_witness :
    ("limit", ParamValue.pInt 20) ∈
      get_intelligent_screener_params (pyLower "Show me stocks under 50") ∧
    (("limit", ParamValue.pInt 20).1 ∈
      ["marketCapMoreThan", "volumeMoreThan", "limit",
       "isActivelyTrading", "peRatioLessThan",
       "priceToSalesRatioLessThan", "betaLowerThan",
       "dividendYieldMoreThan"] ∧
     ("limit", ParamValue.pInt 20).2 ≠ ParamValue.pInt 50) :=
  ⟨by decide,
   c1_no_price_ceiling (pyLower "Show me stocks under 50")
     ("limit", ParamValue.pInt 20) (by decide)⟩
/-- C2 counterexample: with a screener response of HTTP 200 and an
empty body, the endpoint answers HTTP 500 with the "Could not fetch a
list of candidate stocks." error object — not a "no stocks found"
payload with HTTP 200. -/
theorem c2_counterexample :
    (get_stock_recommendation envScreenerEmpty (some "growth stocks")).1 =
      ⟨500, RecPayload.errorObj
        "Could not fetch a list of candidate stocks."⟩ ∧
    (get_stock_recommendation envScreenerEmpty
        (some "growth stocks")).1.status ≠ 200 := by
  exact ⟨rfl, by decide⟩

/-- C2 (amended): for every nonempty query, when the screener call
succeeds with HTTP 200 but an empty candidate list, the endpoint
returns the fixed "Could not fetch a list of candidate stocks." error
payload with HTTP status 500. -/
theorem c2_empty_screener (env : Env) (rq : Option String)
    (hq : pyLower (rq.getD "") ≠ "")
    (hs : ∀ url, env.screener url =
      Except.ok { status_code := 200, json := [] }) :
    (get_stock_recommendation env rq).1 =
      ⟨500, RecPayload.errorObj
        "Could not fetch a list of candidate stocks."⟩ := by
  unfold get_stock_recommendation
  rw [if_neg hq]
  simp only [hs]
  simp

/-- C2 witness: the amended theorem applied to `envScreenerEmpty` and
the query "growth stocks". -/
theorem c2_empty_screener_witness :
    (get_stock_recommendation envScreenerEmpty (some "growth stocks")).1 =
      ⟨500, RecPayload.errorObj
        "Could not fetch a list of candidate stocks."⟩ :=
  c2_empty_screener envScreenerEmpty (some "growth stocks")
    (by decide) (fun _ => rfl)
/-- C6: for every ticker, when the profile request returns a non-200
status or an empty profile list, the detail endpoint answers with an
error object and HTTP status 404. -/
theorem c6_detail_404 (env : DetEnv) (ticker : String) (presp : ProfileResp)
    (h : env.profile (mkProfileUrl env.apikey ticker) = Except.ok presp)
    (hbad : presp.status_code ≠ 200 ∨ presp.json = []) :
    get_stock_details env ticker =
      ⟨404, DetPayload.errorObj
        "Could not retrieve FMP data for this stock."⟩ := by
  unfold get_stock_details
  rw [h]
  exact if_pos hbad

/-- C6 witness: the theorem applied to `detEnvEmpty` (HTTP 200 with an
empty profile list) and the ticker "AAPL". -/
theorem c6_detail_404_witness :
    get_stock_details detEnvEmpty "AAPL" =
      ⟨404, DetPayload.errorObj
        "Could not retrieve FMP data for this stock."⟩ :=
  c6_detail_404 detEnvEmpty "AAPL" { status_code := 200, json := [] }
    rfl (Or.inr rfl)

/-- C10: a missing or empty query field makes the recommendation
endpoint answer "Query not provided" with HTTP status 400, and the
call log stays empty: no screener, yfinance, ratios, language-model or
parse activity takes place. -/
theorem c10_empty_query (env : Env) (rq : Option String)
    (h : rq = none ∨ rq = some "") :
    get_stock_recommendation env rq =
      (⟨400, RecPayload.errorObj "Query not provided"⟩, CallLog.empty) := by
  rcases h with h | h <;> subst h <;> rfl

/-- C10 witness: the theorem applied to `envScreenerEmpty` and a body
without a query field. -/
theorem c10_empty_query_witness :
    get_stock_recommendation envScreenerEmpty none =
      (⟨400, RecPayload.errorObj "Query not provided"⟩, CallLog.empty) :=
  c10_empty_query envScreenerEmpty none (Or.inl rfl)
/-- C9: the aggregation loop queries yfinance exactly at the symbol
built by `yfTickerStr`, and that symbol is the ticker itself when it
contains a dot, the ticker with ".NS" appended when the market is
India, and the unchanged ticker when the market is US. -/
theorem c9_yf_ticker (env : Env) (country ticker : String) :
    (processTicker env country ticker).2.1 = [yfTickerStr country ticker] ∧
    (strContains ticker "." = true →
      yfTickerStr country ticker = ticker) ∧
    (strContains ticker "." = false → country = "IN" →
      yfTickerStr country ticker = ticker ++ ".NS") ∧
    (strContains ticker "." = false → country = "US" →
      yfTickerStr country ticker = ticker) := by
  refine ⟨?_, ?_, ?_, ?_⟩
  · simp only [processTicker]
    repeat' split
    all_goals rfl
  · intro hdot
    unfold yfTickerStr
    rw [if_pos hdot]
  · intro hdot hc
    unfold yfTickerStr
    rw [if_neg (by simp [hdot]), hc, if_pos rfl]
  · intro hdot hc
    unfold yfTickerStr
    rw [if_neg (by simp [hdot]), hc, if_neg (by decide)]

/-- C9 witness: the theorem applied to `envScreenerEmpty`, the Indian
market and the ticker "TCS": the loop queries yfinance at "TCS.NS". -/
theorem c9_yf_ticker_witness :
    (processTicker envScreenerEmpty "IN" "TCS").2.1 =
      [yfTickerStr "IN" "TCS"] ∧
    yfTickerStr "IN" "TCS" = "TCS" ++ ".NS" :=
  ⟨(c9_yf_ticker envScreenerEmpty "IN" "TCS").1,
   (c9_yf_ticker envScreenerEmpty "IN" "TCS").2.2.1 (by decide) rfl⟩
/-- Helper: with a nonempty query the run issues exactly one screener
request, built from the lowered query's country and parameters,
whatever the external world answers. -/
theorem recLog_screenerCalls (env : Env) (rq : Option String)
    (hq : pyLower (rq.getD "") ≠ "") :
    (get_stock_recommendation env rq).2.screenerCalls =
      [⟨mkScreenerUrl env.apikey (countryOf (pyLower (rq.getD "")))
          (get_intelligent_screener_params (pyLower (rq.getD ""))),
        countryOf (pyLower (rq.getD "")),
        get_intelligent_screener_params (pyLower (rq.getD ""))⟩] := by
  simp only [get_stock_recommendation]
  rw [if_neg hq]
  repeat' split
  all_goals rfl

/-- C3: for every nonempty query, the single outbound screener request
carries the country filter "IN" exactly when the lowered query
contains "indian", and the country filter "US" exactly otherwise. -/
theorem c3_country (env : Env) (rq : Option String)
    (hq : pyLower (rq.getD "") ≠ "") :
    ∃ call, (get_stock_recommendation env rq).2.screenerCalls = [call] ∧
      (call.country = "IN" ↔
        strContains (pyLower (rq.getD "")) "indian" = true) ∧
      (call.country = "US" ↔
        strContains (pyLower (rq.getD "")) "indian" = false) := by
  refine ⟨_, recLog_screenerCalls env rq hq, ?_, ?_⟩ <;>
    simp only [countryOf] <;> split <;> simp_all
/-- C3 witness: the theorem applied to `envScreenerEmpty` and the query
"Indian growth stocks". -/
theorem c3_country_witness :
    ∃ call, (get_stock_recommendation envScreenerEmpty
        (some "Indian growth stocks")).2.screenerCalls = [call] ∧
      (call.country = "IN" ↔
        strContains (pyLower ((some "Indian growth stocks").getD ""))
          "indian" = true) ∧
      (call.country = "US" ↔
        strContains (pyLower ((some "Indian growth stocks").getD ""))
          "indian" = false) :=
  c3_country envScreenerEmpty (some "Indian growth stocks") (by decide)

/-- C4: for every model reply whose cleaned text fails to parse as
JSON, the recommendation endpoint returns the fixed error object
"The AI analysis module failed to return a valid format." (with HTTP
status 500) instead of propagating the parse failure. -/
theorem c4_ai_format_error (env : Env) (rq : Option String)
    (sresp : ScreenerResp) (text : String)
    (hq : pyLower (rq.getD "") ≠ "")
    (hs : env.screener
        (mkScreenerUrl env.apikey (countryOf (pyLower (rq.getD "")))
          (get_intelligent_screener_params (pyLower (rq.getD "")))) =
      Except.ok sresp)
    (hst : sresp.status_code = 200)
    (hne : sresp.json ≠ [])
    (hl : ∀ prompt, env.llm prompt = Except.ok text)
    (hp : env.jsonLoads (cleaned_response text) = none) :
    (get_stock_recommendation env rq).1 =
      ⟨500, RecPayload.errorObj
        "The AI analysis module failed to return a valid format."⟩ := by
  simp only [get_stock_recommendation]
  rw [if_neg hq]
  simp only [hs, hl, hp]
  simp [hst, hne]
/-- C4 witness: the theorem applied to `envBracket`, whose model reply
never parses. -/
theorem c4_ai_format_error_witness :
    (get_stock_recommendation envBracket (some "growth")).1 =
      ⟨500, RecPayload.errorObj
        "The AI analysis module failed to return a valid format."⟩ :=
  c4_ai_format_error envBracket (some "growth")
    { status_code := 200, json := [⟨"AAPL"⟩] } "The top pick is [1] today"
    (by decide) rfl rfl (by decide) (fun _ => rfl) rfl

/-- C5 counterexample: on the model reply "The top pick is [1] today"
the handler hands exactly the whole cleaned reply to `json.loads`,
while the claimed first-bracket/last-bracket extraction would yield the
different string "[1]": the generator does not parse the substring
between the first left and last right square bracket. -/
theorem c5_counterexample :
    (get_stock_recommendation envBracket (some "growth")).2.parseCalls =
      ["The top pick is [1] today"] ∧
    specBracketExtract "The top pick is [1] today" = some "[1]" ∧
    ("The top pick is [1] today" : String) ≠ "[1]" := by
  refine ⟨by decide, by decide, by decide⟩

/-- C5 (amended): the generator cleans the model reply by stripping
whitespace and deleting the markdown fence markers, then parses the
whole cleaned reply as JSON: that exact string is handed to
`json.loads`, a failed parse yields the fixed AI-format error payload,
and a successful parse is returned with HTTP 200. -/
theorem c5_cleaned_parse (env : Env) (rq : Option String)
    (sresp : ScreenerResp) (text : String)
    (hq : pyLower (rq.getD "") ≠ "")
    (hs : env.screener
        (mkScreenerUrl env.apikey (countryOf (pyLower (rq.getD "")))
          (get_intelligent_screener_params (pyLower (rq.getD "")))) =
      Except.ok sresp)
    (hst : sresp.status_code = 200)
    (hne : sresp.json ≠ [])
    (hl : ∀ prompt, env.llm prompt = Except.ok text) :
    (get_stock_recommendation env rq).2.parseCalls =
      [cleaned_response text] ∧
    (env.jsonLoads (cleaned_response text) = none →
      (get_stock_recommendation env rq).1 =
        ⟨500, RecPayload.errorObj
          "The AI analysis module failed to return a valid format."⟩) ∧
    (∀ j, env.jsonLoads (cleaned_response text) = some j →
      (get_stock_recommendation env rq).1 = ⟨200, RecPayload.json j⟩) := by
  refine ⟨?_, ?_, ?_⟩
  · simp only [get_stock_recommendation]
    rw [if_neg hq]
    simp only [hs, hl]
    simp [hst, hne]
    split <;> rfl
  · intro hp
    simp only [get_stock_recommendation]
    rw [if_neg hq]
    simp only [hs, hl, hp]
    simp [hst, hne]
  · intro j hj
    simp only [get_stock_recommendation]
    rw [if_neg hq]
    simp only [hs, hl, hj]
    simp [hst, hne]

/-- C5 witness: the amended theorem applied to `envBracket`: the
cleaned reply is handed to `json.loads` verbatim. -/
theorem c5_cleaned_parse_witness :
    (get_stock_recommendation envBracket (some "growth")).2.parseCalls =
      [cleaned_response "The top pick is [1] today"] :=
  (c5_cleaned_parse envBracket (some "growth")
    { status_code := 200, json := [⟨"AAPL"⟩] } "The top pick is [1] today"
    (by decide) rfl rfl (by decide) (fun _ => rfl)).1
/-- Helper: the profile list produced by the aggregation loop is the
filterMap of the per-ticker step over the candidate list. -/
theorem aggregate_profiles (env : Env) (country : String)
    (l : List String) :
    (aggregate env country l).1 =
      l.filterMap (fun t => (processTicker env country t).1) := by
  induction l with
  | nil => rfl
  | cons t ts ih =>
    cases h : (processTicker env country t).1 <;>
      simp [aggregate, List.filterMap_cons, h, ih]

/-- Helper: a ticker whose yfinance fetch raises, yields no info, or
yields info without a market cap is skipped by the loop body. -/
theorem processTicker_skips (env : Env) (country t : String)
    (h : env.yf (yfTickerStr country t) = Except.error () ∨
         env.yf (yfTickerStr country t) = Except.ok none ∨
         ∃ info, env.yf (yfTickerStr country t) = Except.ok (some info) ∧
           info.marketCap = none) :
    (processTicker env country t).1 = none := by
  simp only [processTicker]
  rcases h with h | h | ⟨info, h, hm⟩
  · rw [h]
  · rw [h]
  · rw [h]
    simp [hm]

/-- Helper: a profile is only produced when the yfinance fetch
succeeded with a market cap present and the ratios request returned. -/
theorem processTicker_some (env : Env) (country t : String) (p : Profile)
    (h : (processTicker env country t).1 = some p) :
    ∃ info, env.yf (yfTickerStr country t) = Except.ok (some info) ∧
      info.marketCap ≠ none ∧
      ∃ rresp, env.ratios (mkRatiosUrl env.apikey t) = Except.ok rresp := by
  simp only [processTicker] at h
  rcases hy : env.yf (yfTickerStr country t) with _ | oinfo
  · rw [hy] at h
    simp at h
  · rcases oinfo with _ | info
    · rw [hy] at h
      simp at h
    · rw [hy] at h
      by_cases hm : info.marketCap = none
      · simp [hm] at h
      · simp only [hm, if_false] at h
        rcases hr : env.ratios (mkRatiosUrl env.apikey t) with _ | rresp
        · rw [hr] at h
          simp at h
        · exact ⟨info, rfl, hm, rresp, rfl⟩

/-- C8: the aggregation loop appends exactly the profiles of the
non-skipped candidates in order (a filterMap over the first fifteen);
a candidate whose fetch raises, yields no info, or lacks a market cap
is skipped (contributes no profile) while the rest keep being
processed; and every appended profile stems from a candidate whose
yfinance fetch succeeded with a market cap and whose ratios request
returned. -/
theorem c8_aggregation (env : Env) (country : String)
    (cands : List String) :
    (aggregate env country (cands.take 15)).1 =
      (cands.take 15).filterMap
        (fun t => (processTicker env country t).1) ∧
    (∀ t, (env.yf (yfTickerStr country t) = Except.error () ∨
           env.yf (yfTickerStr country t) = Except.ok none ∨
           ∃ info, env.yf (yfTickerStr country t) =
               Except.ok (some info) ∧ info.marketCap = none) →
      (processTicker env country t).1 = none) ∧
    (∀ p ∈ (aggregate env country (cands.take 15)).1,
      ∃ t ∈ cands.take 15, (processTicker env country t).1 = some p ∧
        ∃ info, env.yf (yfTickerStr country t) = Except.ok (some info) ∧
          info.marketCap ≠ none ∧
          ∃ rresp,
            env.ratios (mkRatiosUrl env.apikey t) = Except.ok rresp) := by
  refine ⟨aggregate_profiles env country _,
    fun t h => processTicker_skips env country t h, ?_⟩
  intro p hp
  rw [aggregate_profiles env country _] at hp
  rcases List.mem_filterMap.mp hp with ⟨t, ht, hsome⟩
  exact ⟨t, ht, hsome, processTicker_some env country t p hsome⟩

/-- C8 witness: the loop equation of the theorem applied to
`envBracket` with the single candidate "AAPL". -/
theorem c8_aggregation_witness :
    (aggregate envBracket "US" (["AAPL"].take 15)).1 =
      (["AAPL"].take 15).filterMap
        (fun t => (processTicker envBracket "US" t).1) :=
  (c8_aggregation envBracket "US" ["AAPL"]).1
/-- C7: exceptions reaching the outermost handler of either endpoint
are converted into a generic HTTP 500 "internal error" JSON object
rather than escaping: a raising screener call, a raising
language-model call, and a raising profile fetch each produce the
catch-all response.  (Both handlers are total functions of their
environment, so no run fails to produce a response.) -/
theorem c7_internal_error_500 :
    (∀ (env : Env) (rq : Option String), pyLower (rq.getD "") ≠ "" →
      (∀ url, env.screener url = Except.error ()) →
      (get_stock_recommendation env rq).1 =
        ⟨500, RecPayload.errorObj "An internal server error occurred."⟩) ∧
    (∀ (env : Env) (rq : Option String) (sresp : ScreenerResp),
      pyLower (rq.getD "") ≠ "" →
      env.screener
          (mkScreenerUrl env.apikey (countryOf (pyLower (rq.getD "")))
            (get_intelligent_screener_params (pyLower (rq.getD "")))) =
        Except.ok sresp →
      sresp.status_code = 200 → sresp.json ≠ [] →
      (∀ prompt, env.llm prompt = Except.error ()) →
      (get_stock_recommendation env rq).1 =
        ⟨500, RecPayload.errorObj "An internal server error occurred."⟩) ∧
    (∀ (env : DetEnv) (ticker : String),
      (∀ url, env.profile url = Except.error ()) →
      get_stock_details env ticker =
        ⟨500, DetPayload.errorObj "An internal error occurred."⟩) := by
  refine ⟨?_, ?_, ?_⟩
  · intro env rq hq hs
    simp only [get_stock_recommendation]
    rw [if_neg hq]
    simp only [hs]
  · intro env rq sresp hq hs hst hne hl
    simp only [get_stock_recommendation]
    rw [if_neg hq]
    simp only [hs, hl]
    simp [hst, hne]
  · intro env ticker hp
    simp only [get_stock_details]
    rw [hp]

/-- C7 witness: the detail-endpoint clause applied to `detEnvRaise`,
whose profile fetch raises. -/
theorem c7_internal_error_500_witness :
    get_stock_details detEnvRaise "AAPL" =
      ⟨500, DetPayload.errorObj "An internal error occurred."⟩ :=
  c7_internal_error_500.2.2 detEnvRaise "AAPL" (fun _ => rfl)
